import Mathlib

/-!
Verification of the cosim_demo repository: a shallow embedding of the
ready/valid elastic adder (`rtl/adder_rv_simple.sv`), the naive squaring DUT
(`naive/rtl/dut.v`), the Verilator C++ testbench (`sim/tb_main.cpp`, including
its mt19937_64 stimulus source), the file-based host (`adder/sw/cosim_tb.cpp`)
and the C testbench (`sw/main.c` with `sw/utils.h`), together with proofs and
refutations of the specified properties.

Machine integers are modelled as `Nat` with explicit reduction modulo `2^w`
where the source wraps; signed values are modelled as `Int`.
-/

set_option maxRecDepth 20000

namespace Cosim

/-- Modulus for 32-bit data paths (`W = 32` in the RTL and both hosts). -/
def W32 : Nat := 2 ^ 32

/-- Modulus for the 64-bit words of `std::mt19937_64`. -/
def M64 : Nat := 2 ^ 64

/-! ## The elastic adder `adder_rv_simple` (rtl/adder_rv_simple.sv)

Registered state of the module: the consumer-facing output buffer and the
spill buffer (second slot).  Data registers hold values `< 2^32`. -/

structure AdderState where
  out_buf_valid : Bool
  out_buf_data : Nat
  spill_buf_valid : Bool
  spill_buf_data : Nat
deriving DecidableEq, Repr

/-- Inputs presented to the adder at one rising clock edge
(`in_valid`, `in_a`, `in_b`, `out_ready`); `rst_n` is held high after the
initial reset window in every testbench, so reset is modelled by the initial
state. -/
structure AdderIn where
  in_valid : Bool
  in_a : Nat
  in_b : Nat
  out_ready : Bool
deriving DecidableEq, Repr

/-- Combinational: `wire out_buf_ready = !out_buf_valid || out_ready`. -/
def adderOutBufReady (s : AdderState) (out_ready : Bool) : Bool :=
  !s.out_buf_valid || out_ready

/-- Combinational: `assign in_ready = !spill_buf_valid`. -/
def adderInReady (s : AdderState) : Bool := !s.spill_buf_valid

/-- Combinational: `assign out_valid = out_buf_valid`. -/
def adderOutValid (s : AdderState) : Bool := s.out_buf_valid

/-- Combinational: `assign out_sum = out_buf_data`. -/
def adderOutSum (s : AdderState) : Nat := s.out_buf_data

/-- Reset state of the adder (`rst_n` low clears all registers). -/
def adderReset : AdderState := ⟨false, 0, false, 0⟩

/-- One rising clock edge of `adder_rv_simple` out of reset: the `always_ff`
block of the RTL.  Case 1 refills or drains the output buffer when
`out_buf_ready`; Case 2 stashes a fresh input into the spill buffer when the
output buffer is not ready.  All right-hand sides read pre-edge values, as
non-blocking assignments do. -/
def adderStep (s : AdderState) (i : AdderIn) : AdderState :=
  let obr := adderOutBufReady s i.out_ready
  let s1 :=
    if obr then
      if s.spill_buf_valid then
        { s with out_buf_data := s.spill_buf_data, out_buf_valid := true,
                 spill_buf_valid := false }
      else if i.in_valid then
        { s with out_buf_data := (i.in_a + i.in_b) % W32, out_buf_valid := true }
      else if i.out_ready then
        { s with out_buf_valid := false }
      else s
    else s
  if i.in_valid && !obr && !s.spill_buf_valid then
    { s1 with spill_buf_data := (i.in_a + i.in_b) % W32, spill_buf_valid := true }
  else s1

/-- Number of occupied slots of the adder (accepted but not yet retired
items held in the output and spill buffers). -/
def adderOcc (s : AdderState) : Nat :=
  (if s.out_buf_valid then 1 else 0) + (if s.spill_buf_valid then 1 else 0)

/-- States of `adder_rv_simple` reachable from reset, together with the
running number of accepted inputs (`in_valid && in_ready` at an edge) and of
completed outputs (`out_valid && out_ready` at an edge). -/
inductive AdderReach : AdderState → Nat → Nat → Prop
  | init : AdderReach adderReset 0 0
  | step {s : AdderState} {nAcc nCmp : Nat} (i : AdderIn) :
      AdderReach s nAcc nCmp →
      AdderReach (adderStep s i)
        (nAcc + (if i.in_valid && adderInReady s then 1 else 0))
        (nCmp + (if adderOutValid s && i.out_ready then 1 else 0))

/-- C9: in every state of `adder_rv_simple` reachable from reset,
`spill_buf_valid` implies `out_buf_valid`, `in_ready` is deasserted exactly
when `spill_buf_valid` holds, and the accepted-but-uncompleted count equals
the buffer occupancy, which never exceeds 2. -/
theorem c9_elastic_adder_invariant :
    ∀ (s : AdderState) (nAcc nCmp : Nat), AdderReach s nAcc nCmp →
    (s.spill_buf_valid = true → s.out_buf_valid = true) ∧
    adderInReady s = !s.spill_buf_valid ∧
    nAcc = nCmp + adderOcc s ∧ adderOcc s ≤ 2 := by
  intro s nAcc nCmp h
  induction h with
  | init => simp [adderReset, adderInReady, adderOcc]
  | @step s nAcc nCmp i hreach ih =>
    obtain ⟨hso, -, hcount, hocc⟩ := ih
    obtain ⟨ov, od, sv, sd⟩ := s
    obtain ⟨iv, a, b, oready⟩ := i
    simp only [adderStep, adderInReady, adderOutValid, adderOutBufReady, adderOcc] at *
    cases ov <;> cases sv <;> cases iv <;> cases oready <;> simp_all

/-- Witness for C9: the invariant holds at the state reached from reset by one
edge that accepts the input `(5, 7)` with a ready consumer. -/
theorem c9_elastic_adder_invariant_witness :
    ((adderStep adderReset ⟨true, 5, 7, true⟩).spill_buf_valid = true →
      (adderStep adderReset ⟨true, 5, 7, true⟩).out_buf_valid = true) ∧
    adderInReady (adderStep adderReset ⟨true, 5, 7, true⟩) =
      !(adderStep adderReset ⟨true, 5, 7, true⟩).spill_buf_valid ∧
    0 + (if true && adderInReady adderReset then 1 else 0) =
      (0 + (if adderOutValid adderReset && true then 1 else 0)) +
        adderOcc (adderStep adderReset ⟨true, 5, 7, true⟩) ∧
    adderOcc (adderStep adderReset ⟨true, 5, 7, true⟩) ≤ 2 :=
  c9_elastic_adder_invariant _ _ _ (AdderReach.step ⟨true, 5, 7, true⟩ AdderReach.init)

/-! ## Scoreboard bookkeeping of the Verilator testbench (sim/tb_main.cpp) -/

/-- Scoreboard state of `tb_main.cpp`: the `std::queue<uint64_t> expq` of
expected sums and the `int errors` counter. -/
structure SBState where
  expq : List Nat
  errors : Nat
deriving DecidableEq, Repr

/-- Pop-and-compare as written at every check site of `tb_main.cpp`: on an
observed completion, an empty queue is a counted violation (`++errors`, the
run continues); otherwise the front expectation is popped and a mismatch with
the observed result is a counted error. -/
def popCompare (s : SBState) (observed : Nat) : SBState :=
  match s.expq with
  | [] => { expq := [], errors := s.errors + 1 }
  | e :: rest =>
      { expq := rest, errors := if observed = e then s.errors else s.errors + 1 }

/-- Scoreboard processing of one edge in the randomized loop of
`tb_main.cpp`, in the program's order: the acceptance's expectation is pushed
(`expq.push`) before the rising edge, and the completion decided by the
pre-edge snapshot pops and compares after it. -/
def sbOnEdge (s : SBState) (did_accept : Bool) (expVal : Nat)
    (did_complete : Bool) (observed : Nat) : SBState :=
  let q := if did_accept then s.expq ++ [expVal] else s.expq
  if did_complete then popCompare { s with expq := q } observed
  else { s with expq := q }

/-- Modelled from the spec: scoreboard edge processing that performs the
completion's pop-and-compare strictly before the acceptance's push, as §4.5
of the specification prescribes (compared against `sbOnEdge`, which embeds
the source's order). -/
def sbOnEdgePopFirst (s : SBState) (did_accept : Bool) (expVal : Nat)
    (did_complete : Bool) (observed : Nat) : SBState :=
  let s1 := if did_complete then popCompare s observed else s
  if did_accept then { s1 with expq := s1.expq ++ [expVal] } else s1

/-- Scoreboard run over a list of edges (accept flag, expected value,
complete flag, observed value): the per-edge iteration of `tb_main.cpp`. -/
def sbRun (s : SBState) : List (Bool × Nat × Bool × Nat) → SBState
  | [] => s
  | e :: rest => sbRun (sbOnEdge s e.1 e.2.1 e.2.2.1 e.2.2.2) rest

/-- C1 counterexample: at an edge where both a completion (observed 5) and an
acceptance (expected 5) occur with an empty scoreboard queue, `tb_main.cpp`
pushes before popping, so the completion is checked against the value
enqueued for the just-accepted transaction (a match, no violation recorded),
whereas processing the completion before the acceptance reports an
empty-queue violation: the claimed processing order is refuted at this
input. -/
theorem c1_same_edge_order_cx :
    sbOnEdge ⟨[], 0⟩ true 5 true 5 = ⟨[], 0⟩ ∧
    sbOnEdgePopFirst ⟨[], 0⟩ true 5 true 5 = ⟨[5], 1⟩ ∧
    sbOnEdge ⟨[], 0⟩ true 5 true 5 ≠ sbOnEdgePopFirst ⟨[], 0⟩ true 5 true 5 := by
  decide

/-- C1 amended: on every edge where both a completion and an acceptance occur
and the scoreboard queue is non-empty, the push-then-pop order of
`tb_main.cpp` checks the observed result against the expected value that was
at the head of the queue before this edge's acceptance was enqueued, and its
result coincides with pop-before-push processing; the two orders differ only
on an empty queue. -/
theorem c1_same_edge_order_amended (s : SBState) (x : Nat) (q : List Nat)
    (e o : Nat) (h : s.expq = x :: q) :
    sbOnEdge s true e true o = sbOnEdgePopFirst s true e true o ∧
    (sbOnEdge s true e true o).expq = q ++ [e] ∧
    (sbOnEdge s true e true o).errors =
      (if o = x then s.errors else s.errors + 1) := by
  obtain ⟨q0, err⟩ := s
  simp only at h
  subst h
  simp [sbOnEdge, sbOnEdgePopFirst, popCompare]

/-- Witness for the amended C1 at the concrete non-empty queue `[3]` with a
same-edge acceptance (expected 5) and completion (observed 3). -/
theorem c1_same_edge_order_witness :
    (⟨[3], 0⟩ : SBState).expq = 3 :: [] ∧
    (sbOnEdge ⟨[3], 0⟩ true 5 true 3 = sbOnEdgePopFirst ⟨[3], 0⟩ true 5 true 3 ∧
      (sbOnEdge ⟨[3], 0⟩ true 5 true 3).expq = [] ++ [5] ∧
      (sbOnEdge ⟨[3], 0⟩ true 5 true 3).errors =
        (if 3 = 3 then (⟨[3], 0⟩ : SBState).errors
         else (⟨[3], 0⟩ : SBState).errors + 1)) :=
  ⟨rfl, c1_same_edge_order_amended ⟨[3], 0⟩ 3 [] 5 3 rfl⟩

/-- C5: at every edge where a completion is observed with the scoreboard
queue empty (and no same-edge acceptance refills it), the loop of
`tb_main.cpp` counts one protocol violation, does not get stuck, leaves the
queue empty, and the run continues with the remaining edges processed
unchanged. -/
theorem c5_spurious_output_counted (s : SBState) (e o : Nat)
    (rest : List (Bool × Nat × Bool × Nat)) (hq : s.expq = []) :
    (sbOnEdge s false e true o).errors = s.errors + 1 ∧
    (sbOnEdge s false e true o).expq = [] ∧
    sbRun s ((false, e, true, o) :: rest) =
      sbRun (sbOnEdge s false e true o) rest := by
  obtain ⟨q, err⟩ := s
  simp only at hq
  subst hq
  exact ⟨rfl, rfl, rfl⟩

/-- Witness for C5 at the concrete empty-queue state with 7 prior errors, a
spurious observed value 9, and one further edge still to process. -/
theorem c5_spurious_output_counted_witness :
    (sbOnEdge ⟨[], 7⟩ false 0 true 9).errors = (⟨[], 7⟩ : SBState).errors + 1 ∧
    (sbOnEdge ⟨[], 7⟩ false 0 true 9).expq = [] ∧
    sbRun ⟨[], 7⟩ ((false, 0, true, 9) :: [(true, 4, false, 0)]) =
      sbRun (sbOnEdge ⟨[], 7⟩ false 0 true 9) [(true, 4, false, 0)] :=
  c5_spurious_output_counted ⟨[], 7⟩ 0 9 [(true, 4, false, 0)] rfl

/-! ## Composed testbench state and the drain loops of tb_main.cpp -/

/-- Combined state of the Verilator testbench: the DUT registers and the
software scoreboard. -/
structure TBState where
  dut : AdderState
  sb : SBState
deriving DecidableEq, Repr

/-- One iteration body of the two drain loops of `tb_main.cpp`: drive
`in_valid = 0`, `out_ready = 1`, take the rising edge, then pop-and-compare
against the post-edge `out_sum` whenever the post-edge `out_valid` is high. -/
def drainIter (st : TBState) : TBState :=
  let dut2 := adderStep st.dut ⟨false, 0, 0, true⟩
  let sb2 := if adderOutValid dut2 then popCompare st.sb (adderOutSum dut2) else st.sb
  ⟨dut2, sb2⟩

/-- The bounded drain loop of `tb_main.cpp`:
`for (int i = 0; i < 64 && (!expq.empty() || top->out_valid); ++i)`.
The fuel argument is instantiated with the budget 64. -/
def drainLoop : Nat → TBState → TBState
  | 0, st => st
  | fuel + 1, st =>
      if !st.sb.expq.isEmpty || adderOutValid st.dut then drainLoop fuel (drainIter st)
      else st

/-- Final exit status of `tb_main.cpp`: `return errors ? 1 : 0` (1 printed as
`TEST FAIL: n mismatches`, 0 as `TEST PASS`). -/
def tbExitCode (errors : Nat) : Nat := if errors = 0 then 0 else 1

/-- One directed smoke iteration of `tb_main.cpp`: drive `in_valid = 1`,
`out_ready = 1` with operands `ab`, push the expectation if the DUT accepts
(pre-edge `in_ready`), take the rising edge, then pop-and-compare against the
post-edge `out_sum` if the post-edge `out_valid` is high. -/
def tbDirectedStep (st : TBState) (ab : Nat × Nat) : TBState :=
  let accept := adderInReady st.dut
  let dut2 := adderStep st.dut ⟨true, ab.1, ab.2, true⟩
  let sbMid :=
    if accept then { st.sb with expq := st.sb.expq ++ [(ab.1 + ab.2) &&& (W32 - 1)] }
    else st.sb
  let sb2 := if adderOutValid dut2 then popCompare sbMid (adderOutSum dut2) else sbMid
  ⟨dut2, sb2⟩

/-- The directed smoke vectors `dirv` of `tb_main.cpp` (with `mask =
0xFFFFFFFF`). -/
def dirv : List (Nat × Nat) :=
  [(0, 0), (1, 0), (0, 1), (1, 1), (0xFFFFFFFF, 1), (0xFFFFFFFF, 0xFFFFFFFF)]

/-- Testbench state after the directed smoke phase and its drain loop,
starting from the reset DUT and an empty scoreboard. -/
def tbAfterDirected : TBState :=
  drainLoop 64 (dirv.foldl tbDirectedStep ⟨adderReset, ⟨[], 0⟩⟩)

/-- C2 evaluated at the failing input: entering the final drain of
`tb_main.cpp` with one accepted-but-unretired item — expectation queue
`[3820462669]` and the output buffer holding `3820462669`, the state the
seed-1 run reaches after its 2000 randomized cycles — the DUT retires the
item at the first drain edge, so the post-edge check (`out_valid` is already
low again) never pops it; the 64-cycle drain budget is exhausted with the
queue still non-empty, no error is recorded, and the run exits with code 0
(`TEST PASS`): the drain timeout is a silent pass, not a reported liveness
failure. -/
theorem c2_drain_timeout_silent_pass :
    (drainLoop 64 ⟨⟨true, 3820462669, false, 0⟩, ⟨[3820462669], 0⟩⟩).sb =
      ⟨[3820462669], 0⟩ ∧
    tbExitCode
      (drainLoop 64 ⟨⟨true, 3820462669, false, 0⟩, ⟨[3820462669], 0⟩⟩).sb.errors = 0 := by
  decide

/-! ## The reference model (C4) -/

/-- Expected sum pushed by `tb_main.cpp`: `(v.a + v.b) & mask`. -/
def tbExpected (a b : Nat) : Nat := (a + b) &&& (W32 - 1)

/-- Expected sum computed by `cosim_tb.cpp`:
`(uint32_t)((uint64_t)in[i].first + (uint64_t)in[i].second)`. -/
def cosimExpected (a b : Nat) : Nat := (a + b) % W32

/-- The five directed operand pairs named by the specification's concrete
scenario: the first five entries of `dirv`. -/
def dirv5 : List (Nat × Nat) := dirv.take 5

/-- Feed one operand pair per cycle into `adder_rv_simple` with `in_valid`
high and the consumer always ready, collecting the post-edge `out_sum` after
each edge: the directed smoke scenario of both testbenches. -/
def adderAlwaysReadyRun (s : AdderState) : List (Nat × Nat) → List Nat
  | [] => []
  | ab :: rest =>
      let s2 := adderStep s ⟨true, ab.1, ab.2, true⟩
      adderOutSum s2 :: adderAlwaysReadyRun s2 rest

/-- C4: both hosts' reference models compute `(a + b) mod 2^32` for every
pair of operands, the directed sequence
`(0,0),(1,0),(0,1),(1,1),(0xFFFFFFFF,1)` yields the expected outputs
`0,1,1,2,0` (the last wrapping), and the adder itself, driven with the
consumer always ready, produces exactly that output sequence. -/
theorem c4_reference_model_mod32 :
    (∀ a b : Nat, tbExpected a b = (a + b) % W32 ∧
      cosimExpected a b = (a + b) % W32) ∧
    dirv5.map (fun ab => cosimExpected ab.1 ab.2) = [0, 1, 1, 2, 0] ∧
    adderAlwaysReadyRun adderReset dirv5 = [0, 1, 1, 2, 0] := by
  refine ⟨fun a b => ⟨?_, rfl⟩, by decide, by decide⟩
  simpa [tbExpected, W32] using Nat.and_pow_two_sub_one_eq_mod (a + b) 32

/-! ## std::mt19937_64, the deterministic PRNG of tb_main.cpp

The Mersenne Twister with the standard 64-bit parameters, as instantiated by
`std::mt19937_64 rng(1)`.  Words are `Nat` values reduced modulo `2^64`. -/

/-- State of `std::mt19937_64`: the 312-word state array and the next read
index. -/
structure MTState where
  arr : List Nat
  idx : Nat
deriving DecidableEq, Repr

/-- Seeding recurrence of `std::mt19937_64`:
`mt[i] = 6364136223846793005 * (mt[i-1] ^ (mt[i-1] >> 62)) + i (mod 2^64)`,
producing the words with indices `i, i+1, ...` (`fuel` many) after a word
with value `prev` at index `i - 1`. -/
def mtInitFrom : Nat → Nat → Nat → List Nat
  | _, _, 0 => []
  | prev, i, fuel + 1 =>
      let x := (6364136223846793005 * (prev ^^^ (prev >>> 62)) + i) % M64
      x :: mtInitFrom x (i + 1) fuel

/-- Seeded initial state of `std::mt19937_64`: `mt[0] = seed`, 311 further
words from the seeding recurrence, read index at 312 so the first draw
twists. -/
def mtInit (seed : Nat) : MTState :=
  ⟨seed % M64 :: mtInitFrom (seed % M64) 1 311, 312⟩

/-- Upper-bits mask of the 64-bit Mersenne Twister (33 high bits). -/
def mtUpperMask : Nat := 0xFFFFFFFF80000000

/-- Lower-bits mask of the 64-bit Mersenne Twister (31 low bits). -/
def mtLowerMask : Nat := 0x7FFFFFFF

/-- One in-place update of the twist loop at index `i` (later indices of the
same twist read the words already updated this round, as the in-place C++
loop does). -/
def mtTwistAt (mt : List Nat) (i : Nat) : List Nat :=
  let x := ((mt.getD i 0) &&& mtUpperMask) ||| ((mt.getD ((i + 1) % 312) 0) &&& mtLowerMask)
  let xA := if x % 2 = 1 then (x >>> 1) ^^^ 0xB5026F5AA96619E9 else x >>> 1
  mt.set i ((mt.getD ((i + 156) % 312) 0) ^^^ xA)

/-- The full twist of `std::mt19937_64` over all 312 words. -/
def mtTwist (mt : List Nat) : List Nat :=
  (List.range 312).foldl mtTwistAt mt

/-- Output tempering of `std::mt19937_64`. -/
def mtTemper (y : Nat) : Nat :=
  let y1 := y ^^^ ((y >>> 29) &&& 0x5555555555555555)
  let y2 := y1 ^^^ ((y1 <<< 17) &&& 0x71D67FFFEDA60000)
  let y3 := y2 ^^^ ((y2 <<< 37) &&& 0xFFF7EEE000000000)
  y3 ^^^ (y3 >>> 43)

/-- Draw one 64-bit value: twist when the read index reaches 312, then
temper the word at the read index and advance it. -/
def mtNext (s : MTState) : Nat × MTState :=
  let s2 := if 312 ≤ s.idx then ⟨mtTwist s.arr, 0⟩ else s
  (mtTemper (s2.arr.getD s2.idx 0), ⟨s2.arr, s2.idx + 1⟩)

/-! ## The randomized streaming phase of tb_main.cpp -/

/-- One cycle's drive decisions of the randomized loop: whether a
transaction is offered, whether the consumer is ready, and the two
operands. -/
structure Stim where
  present : Bool
  ready : Bool
  a : Nat
  b : Nat
deriving DecidableEq, Repr

/-- Per-cycle stimulus derivation of the randomized loop of `tb_main.cpp`:
`present = rand_bit(70)`, `ready = rand_bit(60)`, `a = rng() & mask`,
`b = rng() & mask` — four consecutive draws, where `rand_bit(p)` is
`rng() % 100 < p`. -/
def tbDrawStim (m : MTState) : Stim × MTState :=
  let p1 := mtNext m
  let p2 := mtNext p1.2
  let p3 := mtNext p2.2
  let p4 := mtNext p3.2
  (⟨decide (p1.1 % 100 < 70), decide (p2.1 % 100 < 60),
    p3.1 &&& (W32 - 1), p4.1 &&& (W32 - 1)⟩, p4.2)

/-- One randomized-loop iteration of `tb_main.cpp`: drive the drawn
stimulus, snapshot the pre-edge `out_valid`/`out_sum`, push the expectation
if the DUT accepts (pre-edge `in_valid && in_ready`), take the rising edge,
then use the pre-edge snapshot to decide the pop and comparison. -/
def tbRandStep (st : TBState) (x : Stim) : TBState :=
  let pre_valid := adderOutValid st.dut
  let pre_sum := adderOutSum st.dut
  let accept := x.present && adderInReady st.dut
  let dut2 := adderStep st.dut ⟨x.present, x.a, x.b, x.ready⟩
  let sb2 := sbOnEdge st.sb accept ((x.a + x.b) &&& (W32 - 1))
    (pre_valid && x.ready) pre_sum
  ⟨dut2, sb2⟩

/-- The first `n` cycles of the randomized phase, recording for each cycle
the drawn stimulus and the DUT's `in_ready` response seen by the driver. -/
def tbRandObs : Nat → MTState × TBState → List (Stim × Bool)
  | 0, _ => []
  | n + 1, (m, st) =>
      let d := tbDrawStim m
      (d.1, adderInReady st.dut) :: tbRandObs n (d.2, tbRandStep st d.1)

/-- Observations of the actual randomized run of `tb_main.cpp`: rng seeded
with 1, DUT and scoreboard in the post-directed-phase state. -/
def tbObsList (n : Nat) : List (Stim × Bool) :=
  tbRandObs n (mtInit 1, tbAfterDirected)

/-- The producer task `send_item` of the file-based harness
(`adder_cosim_tb.sv` / `rv_cosim_tb.sv`): `in_a`, `in_b` and `in_valid` are
driven once at a falling edge and then left unchanged while the task waits
`do @(posedge clk); while (!in_ready);` — so the offer is still asserted at
posedge `k` exactly when no earlier posedge sampled `in_ready` high. -/
def sendItemOffered (r : Nat → Bool) : Nat → Bool
  | 0 => true
  | k + 1 => sendItemOffered r k && !r k

/-- Drive presented by `send_item a b` at posedge `k` under the `in_ready`
trace `r`: the offered flag together with the payload, whose registers are
not re-driven while the task waits for acceptance. -/
def sendItemDrive (a b : Nat) (r : Nat → Bool) (k : Nat) : Bool × Nat × Nat :=
  (sendItemOffered r k, a, b)

/-- C3 counterexample: in the actual randomized run of `tb_main.cpp` (rng
seeded with 1), at cycle 7 the driver offers operands
`(1788381351, 864468149)` while the DUT's `in_ready` is low (the spill slot
is occupied, so the offer is not accepted), yet at cycle 8 it offers
different operands `(3067528174, 3926673596)`: the offered-but-unaccepted
payload is redrawn rather than held. -/
theorem c3_held_stimulus_cx :
    (tbObsList 9).drop 7 =
      [(⟨true, true, 1788381351, 864468149⟩, false),
       (⟨true, true, 3067528174, 3926673596⟩, true)] ∧
    (⟨true, true, 1788381351, 864468149⟩ : Stim).a ≠
      (⟨true, true, 3067528174, 3926673596⟩ : Stim).a ∧
    (⟨true, true, 1788381351, 864468149⟩ : Stim).b ≠
      (⟨true, true, 3067528174, 3926673596⟩ : Stim).b := by
  refine ⟨by decide, by decide, by decide⟩

/-- C3 amended: the held-stimulus invariant holds for the file-based
harness's `send_item` producer — if the transaction is offered and not
accepted at posedge `k`, then at posedge `k+1` the same payload is offered
with the offered flag still asserted — while the Verilator testbench's
randomized driver redraws its offer and operands every cycle regardless of
acceptance (and compensates by enqueuing expectations only on actual
acceptance). -/
theorem c3_held_stimulus_amended (a b : Nat) (r : Nat → Bool) (k : Nat)
    (hoff : sendItemOffered r k = true) (hna : r k = false) :
    sendItemDrive a b r (k + 1) = sendItemDrive a b r k ∧
    sendItemOffered r (k + 1) = true := by
  refine ⟨?_, ?_⟩ <;> simp [sendItemDrive, sendItemOffered, hoff, hna]

/-- Witness for the amended C3: the payload `(5, 7)` offered against an
`in_ready` trace that is constantly low is still offered, unchanged, at the
next posedge. -/
theorem c3_held_stimulus_witness :
    sendItemDrive 5 7 (fun _ => false) (0 + 1) = sendItemDrive 5 7 (fun _ => false) 0 ∧
    sendItemOffered (fun _ => false) (0 + 1) = true :=
  c3_held_stimulus_amended 5 7 (fun _ => false) 0 rfl rfl

/-! ## The file-based host (adder/sw/cosim_tb.cpp) and the C testbench
(sw/main.c with sw/utils.h) -/

/-- The linear congruential stimulus generator of `cosim_tb.cpp`:
`s = s * 1664525u + 1013904223u` on `uint32_t`. -/
def lcg (s : Nat) : Nat := (s * 1664525 + 1013904223) % W32

/-- The stimulus vector of `cosim_tb.cpp`: `n` pairs, each drawn as
`a = lcg(); b = lcg();` from the running generator state. -/
def cosimStimFrom : Nat → Nat → List (Nat × Nat)
  | _, 0 => []
  | s, n + 1 =>
      let a := lcg s
      let b := lcg a
      (a, b) :: cosimStimFrom b n

/-- `COSIM_N`, the number of stimulus pairs of `cosim_tb.cpp`, equal to the
`N` of `sw/main.c`. -/
def cosimN : Nat := 1024

/-- One comparison step of the loop shared by `cosim_tb.cpp` and
`sw/main.c`, on the accumulator (mismatch count, printed lines):
`if (out[i] != gld[i]) { if (mism < 10) print; ++mism; }`. -/
def compareStep {α : Type} [DecidableEq α] (acc : Nat × Nat) (p : α × α) : Nat × Nat :=
  if p.1 = p.2 then acc
  else (acc.1 + 1, if acc.1 < 10 then acc.2 + 1 else acc.2)

/-- The whole compare loop: every position is visited, mismatches are
counted, and a diagnostic line is printed only while the count is below
10. -/
def compareRun {α : Type} [DecidableEq α] (out gld : List α) : Nat × Nat :=
  (out.zip gld).foldl compareStep (0, 0)

/-- Invariant of the compare fold: starting from a count `m` with
`min m 10` lines already printed, the fold adds one to the count for every
mismatching position and keeps the printed-lines component at
`min count 10`. -/
theorem compareFold_spec {α : Type} [DecidableEq α] :
    ∀ (l : List (α × α)) (m : Nat),
      (l.foldl compareStep (m, min m 10)).1 =
        m + l.countP (fun q => decide (q.1 ≠ q.2)) ∧
      (l.foldl compareStep (m, min m 10)).2 =
        min (m + l.countP (fun q => decide (q.1 ≠ q.2))) 10
  | [], m => by simp
  | q :: l, m => by
    by_cases hq : q.1 = q.2
    · have ih := compareFold_spec l m
      have key : compareStep (m, min m 10) q = (m, min m 10) := by
        simp [compareStep, hq]
      have hcnt : (q :: l).countP (fun r => decide (r.1 ≠ r.2)) =
          l.countP (fun r => decide (r.1 ≠ r.2)) := by
        simp [List.countP_cons, hq]
      rw [List.foldl_cons, key, hcnt]
      exact ih
    · have hmin : (if m < 10 then min m 10 + 1 else min m 10) = min (m + 1) 10 := by
        split <;> omega
      have key : compareStep (m, min m 10) q = (m + 1, min (m + 1) 10) := by
        simp [compareStep, hq, hmin]
      have hcnt : (q :: l).countP (fun r => decide (r.1 ≠ r.2)) =
          l.countP (fun r => decide (r.1 ≠ r.2)) + 1 := by
        simp [List.countP_cons, hq]
      have ih := compareFold_spec l (m + 1)
      rw [List.foldl_cons, key, hcnt]
      refine ⟨by rw [ih.1]; omega, by rw [ih.2]; congr 1; omega⟩

/-- C7: for both hosts' compare loops and any output/golden vectors, every
mismatch is counted (the final count is the number of mismatching positions
over the whole comparison, so no mismatch aborts the loop), while the number
of printed diagnostic lines is `min count 10`, hence never exceeds 10. -/
theorem c7_mismatches_counted_printing_capped :
    (∀ out gld : List Int,
      (compareRun out gld).1 =
        (out.zip gld).countP (fun q => decide (q.1 ≠ q.2)) ∧
      (compareRun out gld).2 = min (compareRun out gld).1 10 ∧
      (compareRun out gld).2 ≤ 10) ∧
    (∀ out gld : List Nat,
      (compareRun out gld).1 =
        (out.zip gld).countP (fun q => decide (q.1 ≠ q.2)) ∧
      (compareRun out gld).2 = min (compareRun out gld).1 10 ∧
      (compareRun out gld).2 ≤ 10) := by
  constructor <;>
  · intro out gld
    have h := compareFold_spec (out.zip gld) 0
    have h0 : (min 0 10 : Nat) = 0 := by decide
    rw [h0] at h
    unfold compareRun
    refine ⟨by rw [h.1]; omega, by rw [h.1, h.2], by rw [h.2]; omega⟩

/-- Outcome of running `sw/main.c`: a normal exit code, or the abort raised
by the failed `assert(launch_sim() == 0)`. -/
inductive SwOutcome where
  | exited (code : Nat)
  | aborted
deriving DecidableEq, Repr

/-- Results of the fallible external operations of `sw/main.c`: whether the
`malloc` calls all succeed, whether writing `sim/in.dat` succeeds, the exit
code of the spawned `vsim` process, and the outputs parsed back from
`sim/out.dat` (`none` when the file cannot be opened or holds fewer than `N`
integers). -/
structure SwEnv where
  alloc_ok : Bool
  write_ok : Bool
  sim_rc : Nat
  read_result : Option (List Int)
deriving Repr

/-- Deterministic input of `sw/main.c`: `in[i] = (int)(i - 512)`. -/
def swInput (i : Nat) : Int := (i : Int) - 512

/-- Golden reference of `sw/main.c`: `gld[i] = in[i] * in[i]`. -/
def swGolden (i : Nat) : Int := swInput i * swInput i

/-- The golden vector of `sw/main.c` (`N = 1024`). -/
def swGoldenList : List Int := (List.range cosimN).map swGolden

/-- `main` of `sw/main.c` over the outcomes of its external operations:
exit 1 on allocation failure, 2 on input-write failure, an abort via
`assert(launch_sim() == 0)` when the simulator exits non-zero, 4 when the
outputs cannot be read back (or are too short), 5 when mismatches were
counted and 0 otherwise. -/
def swMain (env : SwEnv) : SwOutcome :=
  if !env.alloc_ok then .exited 1
  else if !env.write_ok then .exited 2
  else if env.sim_rc ≠ 0 then .aborted
  else
    match env.read_result with
    | none => .exited 4
    | some out =>
        if (compareRun out swGoldenList).1 = 0 then .exited 0 else .exited 5

/-- Results of the external operations of `cosim_tb.cpp`: input-write
success, exit codes of the `vlib`, `vlog` and `vsim` commands, and the
outputs parsed from the output file (`none` when it cannot be opened). -/
structure CosimEnv where
  write_ok : Bool
  vlib_rc : Nat
  vlog_rc : Nat
  vsim_rc : Nat
  read_result : Option (List Nat)
deriving Repr

/-- Expected outputs of `cosim_tb.cpp` for a seed: the reference sums of the
generated stimulus. -/
def cosimExpectedList (seed : Nat) : List Nat :=
  (cosimStimFrom seed cosimN).map fun ab => cosimExpected ab.1 ab.2

/-- `main` of `cosim_tb.cpp` over its seed and external outcomes: exit 2
when the inputs cannot be written, 3 when any of `vlib`/`vlog`/`vsim` exits
non-zero, 4 when the outputs cannot be read or their count differs from
`COSIM_N`, 5 when mismatches were counted against `(a + b) mod 2^32`, and 0
otherwise. -/
def cosimMain (seed : Nat) (env : CosimEnv) : Nat :=
  if !env.write_ok then 2
  else if env.vlib_rc ≠ 0 then 3
  else if env.vlog_rc ≠ 0 then 3
  else if env.vsim_rc ≠ 0 then 3
  else
    match env.read_result with
    | none => 4
    | some got =>
        if got.length ≠ cosimN then 4
        else if (compareRun got (cosimExpectedList seed)).1 = 0 then 0 else 5

/-- C6: the exit statuses of both hosts separate the outcome classes: a
non-zero exit of any spawned tool makes `cosim_tb.cpp` return 3 (and makes
`sw/main.c` abort through its assert), an output list whose length differs
from the input count returns 4, write/read failures return 2/4, allocation
failure returns 1, and an output list of the right length returns 0 exactly
when no position mismatches and 5 otherwise — all codes pairwise
distinct. -/
theorem c6_exit_status_distinguishes
    (seed rc src : Nat) (r : Option (List Nat)) (got : List Nat)
    (hrc : rc ≠ 0) (hsrc : src ≠ 0) (hlen : got.length ≠ cosimN) :
    cosimMain seed ⟨true, 0, 0, rc, r⟩ = 3 ∧
    cosimMain seed ⟨true, 0, 0, 0, some got⟩ = 4 ∧
    cosimMain seed ⟨false, 0, 0, 0, none⟩ = 2 ∧
    cosimMain seed ⟨true, 0, 0, 0, none⟩ = 4 ∧
    swMain ⟨true, true, src, none⟩ = .aborted ∧
    swMain ⟨false, true, 0, none⟩ = .exited 1 ∧
    swMain ⟨true, false, 0, none⟩ = .exited 2 ∧
    swMain ⟨true, true, 0, none⟩ = .exited 4 ∧
    (∀ got2 : List Nat, got2.length = cosimN →
      cosimMain seed ⟨true, 0, 0, 0, some got2⟩ =
        (if (compareRun got2 (cosimExpectedList seed)).1 = 0 then 0 else 5)) ∧
    SwOutcome.aborted ≠ SwOutcome.exited 5 ∧
    List.Pairwise (fun x y => x ≠ y) [0, 1, 2, 3, 4, 5] := by
  refine ⟨?_, ?_, by simp [cosimMain], ?_, ?_, by simp [swMain],
    by simp [swMain], by simp [swMain], ?_, by simp, by simp⟩
  · simp [cosimMain, hrc]
  · simp [cosimMain, hlen]
  · simp [cosimMain]
  · simp [swMain, hsrc]
  · intro got2 hlen2
    simp [cosimMain, hlen2]

/-- Witness for C6 at the concrete values: seed 1, simulator exit codes 7
and 9, no readable output, and an empty (wrong-length) output list. -/
theorem c6_exit_status_distinguishes_witness :
    cosimMain 1 ⟨true, 0, 0, 7, none⟩ = 3 ∧
    cosimMain 1 ⟨true, 0, 0, 0, some []⟩ = 4 ∧
    cosimMain 1 ⟨false, 0, 0, 0, none⟩ = 2 ∧
    cosimMain 1 ⟨true, 0, 0, 0, none⟩ = 4 ∧
    swMain ⟨true, true, 9, none⟩ = .aborted ∧
    swMain ⟨false, true, 0, none⟩ = .exited 1 ∧
    swMain ⟨true, false, 0, none⟩ = .exited 2 ∧
    swMain ⟨true, true, 0, none⟩ = .exited 4 ∧
    (∀ got2 : List Nat, got2.length = cosimN →
      cosimMain 1 ⟨true, 0, 0, 0, some got2⟩ =
        (if (compareRun got2 (cosimExpectedList 1)).1 = 0 then 0 else 5)) ∧
    SwOutcome.aborted ≠ SwOutcome.exited 5 ∧
    List.Pairwise (fun x y => x ≠ y) [0, 1, 2, 3, 4, 5] :=
  c6_exit_status_distinguishes 1 7 9 none []
    (by decide) (by decide) (by decide)

/-- A run of the stimulus generation of `cosim_tb.cpp` in an ambient
environment: the second parameter models the wall-clock time at which the
run starts; the code derives every draw from the stored seed alone and
contains no clock read. -/
def cosimStimulusRun (seed : Nat) (_wallClock : Nat) : List (Nat × Nat) :=
  cosimStimFrom seed cosimN

/-- A run of the randomized-phase observations of `tb_main.cpp` in an
ambient environment: the rng is constructed once as `std::mt19937_64
rng(seed)` and never reseeded, in particular not from the wall clock. -/
def tbObsRun (seed : Nat) (_wallClock : Nat) (n : Nat) : List (Stim × Bool) :=
  tbRandObs n (mtInit seed, tbAfterDirected)

/-- C8: with the seed fixed, two runs started at arbitrary (different)
wall-clock times produce identical transaction sequences and identical
readiness-decision sequences, for both the LCG-based host and the
mt19937_64-based Verilator testbench: every failure is replayable from the
seed. -/
theorem c8_seeded_reproducibility :
    ∀ (seed t1 t2 n : Nat),
      cosimStimulusRun seed t1 = cosimStimulusRun seed t2 ∧
      tbObsRun seed t1 n = tbObsRun seed t2 n ∧
      (tbObsRun seed t1 n).map (fun ob => ob.1.ready) =
        (tbObsRun seed t2 n).map (fun ob => ob.1.ready) :=
  fun _ _ _ _ => ⟨rfl, rfl, rfl⟩

/-! ## The naive squaring DUT (naive/rtl/dut.v) -/

/-- Registered state of the naive squaring `dut`: `out_valid` and the
`2*DATAW`-bit signed `out_data` (signed values modelled as `Int`; the
product of two `DATAW`-bit signed values fits the widened register
exactly). -/
structure NaiveDutState where
  out_valid : Bool
  out_data : Int
deriving DecidableEq, Repr

/-- Combinational: `assign in_ready = rst_n` — always ready once out of
reset. -/
def naiveInReady (rst_n : Bool) : Bool := rst_n

/-- Completion (output transfer) fired at an edge: pre-edge
`out_valid && out_ready`. -/
def naiveCompletes (s : NaiveDutState) (out_ready : Bool) : Bool :=
  s.out_valid && out_ready

/-- One rising clock edge of the naive `dut`: on reset clear; otherwise
`if (in_valid && in_ready)` load `in_data * in_data` and set `out_valid`,
`else if (out_valid && out_ready)` clear `out_valid`. -/
def naiveStep (s : NaiveDutState) (rst_n in_valid : Bool) (in_data : Int)
    (out_ready : Bool) : NaiveDutState :=
  if !rst_n then ⟨false, 0⟩
  else if in_valid && naiveInReady rst_n then ⟨true, in_data * in_data⟩
  else if s.out_valid && out_ready then ⟨false, s.out_data⟩
  else s

/-- C10: for the naive squaring DUT, `in_ready` equals `rst_n`, and input
acceptance takes priority over output retirement: on every edge out of reset
with `in_valid` high, the next state holds `in_data * in_data` with
`out_valid` set, for every prior state and consumer-ready value; in
particular with a pending unconsumed result (`out_valid` high, `out_ready`
low) no completion fires at that edge and the pending value is
overwritten. -/
theorem c10_naive_dut_overwrites_pending :
    (∀ r : Bool, naiveInReady r = r) ∧
    (∀ (s : NaiveDutState) (d : Int) (oready : Bool),
      naiveStep s true true d oready = ⟨true, d * d⟩) ∧
    (∀ (v : Int) (d : Int),
      naiveStep ⟨true, v⟩ true true d false = ⟨true, d * d⟩ ∧
      naiveCompletes ⟨true, v⟩ false = false) := by
  refine ⟨fun r => rfl, fun s d oready => rfl, fun v d => ⟨rfl, rfl⟩⟩

end Cosim
